import Mathlib

/-!
Verification of the Aurynk device connectivity and session orchestration core.

The definitions below are shallow embeddings of the Python source:
  - `aurynk/utils/device_store.py`   (DeviceStore)
  - `aurynk/utils/device_events.py`  (change-notification pub/sub)
  - `aurynk/core/adb_manager.py`     (ADBController.pair_device, start_mdns_discovery)
  - `aurynk/core/scrcpy_runner.py`   (ScrcpyManager)
  - `aurynk/services/device_monitor.py` (DeviceMonitor)
  - `aurynk/lib/tray_controller.py`  (send_devices_to_tray)

External effects (subprocess invocations, file writes, sockets) are modelled as
explicit parameters (the observed output of the external command) and as event
traces listing, in order, the effects a call performs.
-/

set_option linter.unusedVariables false

/-- A Python scalar value as it occurs in the device dictionaries: a string, an
integer, or a boolean. -/
inductive PyVal where
  | vs (s : String)
  | vn (n : Int)
  | vb (b : Bool)
deriving DecidableEq

/-- A Python dict with string keys, modelled as a partial map.  `d k = none`
models a missing key. -/
def Dict : Type := String → Option PyVal

/-- The empty dict. -/
def Dict.empty : Dict := fun _ => none

/-- Functional update of one key (used to build concrete dicts). -/
def Dict.set (d : Dict) (k : String) (v : PyVal) : Dict :=
  fun s => if s = k then some v else d s

/-- Python `base.update(other)`: every key of `other` overwrites the
corresponding key of `base`; keys absent from `other` keep their old value. -/
def Dict.update (base other : Dict) : Dict :=
  fun k => (other k).orElse (fun _ => base k)

/-- Python truthiness of a scalar: empty strings, 0 and False are falsy. -/
def truthyVal : PyVal → Bool
  | .vs s => !(s == "")
  | .vn n => !(n == 0)
  | .vb b => b

/-- Python truthiness of a `d.get(k)` result: `None` is falsy. -/
def truthy : Option PyVal → Bool
  | none => false
  | some v => truthyVal v

/-- Python `str()` of a scalar, as used when formatting a serial. -/
def pyStr : PyVal → String
  | .vs s => s
  | .vn n => toString n
  | .vb true => "True"
  | .vb false => "False"

/-- Python `pat in s`: whether `pat` occurs as a contiguous substring of `s`. -/
def strContains (s pat : String) : Bool :=
  (List.range (s.data.length + 1)).any fun i => List.isPrefixOf pat.data (s.data.drop i)

/-- Python `s.lower()` (ASCII case folding, as adb output is ASCII). -/
def pyLower (s : String) : String :=
  String.mk (s.data.map Char.toLower)

/-! ## Device registry: `DeviceStore` (aurynk/utils/device_store.py)

The registry is the in-memory list `self._devices : List[Dict]`.  File
persistence, the change notification and the desktop notification are recorded
as an ordered event trace. -/

/-- One observable effect of a `DeviceStore` operation, in the order the source
performs them. -/
inductive StoreEvent where
  | disconnectIssued (serial : String)
  | savedFile
  | notifiedChange
  | desktopNotification (title : String)
deriving DecidableEq

/-- The list mutation of `DeviceStore.add_or_update_device`: find the first
record whose "address" equals the new record's "address" and merge the new
fields into it with `dict.update`; if none matches, append the new record. -/
def upsertList (devices : List Dict) (info : Dict) : List Dict :=
  match devices with
  | [] => [info]
  | d :: rest =>
    if d "address" = info "address" then Dict.update d info :: rest
    else d :: upsertList rest info

/-- `DeviceStore.add_or_update_device`: merge-or-append the record, then save
the file, fire `notify_device_changed`, and show one desktop notification
(titled "Device updated" when a record existed, "Device added" otherwise). -/
def add_or_update_device (devices : List Dict) (info : Dict) :
    List Dict × List StoreEvent :=
  let title :=
    if devices.any (fun d => decide (d "address" = info "address")) then "Device updated"
    else "Device added"
  (upsertList devices info,
   [.savedFile, .notifiedChange, .desktopNotification title])

/-- `DeviceStore.remove_device`.  `adbDevicesOut` is the stdout of the
`adb devices` listing query (`none` when the query raised; the source catches
that and treats the device as not connected).  The device is considered
connected when the serial `address:connect_port` occurs in the listing output;
in that case a disconnect is issued first.  The record (if any) is then
filtered out, the file saved, the change notification fired, and a desktop
notification shown. -/
def remove_device (devices : List Dict) (address : String)
    (adbDevicesOut : Option String) : List Dict × List StoreEvent :=
  let device := devices.find? (fun d => decide (d "address" = some (.vs address)))
  let disconnectEvents : List StoreEvent :=
    match device with
    | none => []
    | some d =>
      match d "connect_port" with
      | none => []
      | some cp =>
        if truthyVal cp then
          let serial := address ++ ":" ++ pyStr cp
          match adbDevicesOut with
          | some out => if strContains out serial then [.disconnectIssued serial] else []
          | none => []
        else []
  let remaining := devices.filter (fun d => !(decide (d "address" = some (.vs address))))
  (remaining,
   disconnectEvents ++ [.savedFile, .notifiedChange, .desktopNotification "Device removed"])

/-! ## Change-notification pub/sub (aurynk/utils/device_events.py)

`notify_device_changed` iterates the registered callback list in registration
order and invokes each callback.  The loop body has no try/except, so an
exception raised by a callback propagates immediately to the caller. -/

/-- A registered device-change subscriber: an identifier and whether invoking
it raises an exception. -/
structure Subscriber where
  id : Nat
  raises : Bool
deriving DecidableEq

/-- `notify_device_changed`: returns the ids of the subscribers that were
invoked, in order, together with the id of the raising subscriber when one
raised (its exception escapes the loop, so later subscribers are not invoked). -/
def notify_device_changed : List Subscriber → List Nat × Option Nat
  | [] => ([], none)
  | c :: rest =>
    if c.raises then ([c.id], some c.id)
    else
      let r := notify_device_changed rest
      (c.id :: r.1, r.2)

/-- `DeviceStore.add_or_update_device` together with the notify step, viewed by
its caller: the list is updated and saved, then `notify_device_changed` runs
with no handler around it, so a subscriber's exception escapes the upsert call
(`Except.error` carries the raising subscriber's id; on the normal path the
new list and the invoked subscriber ids are returned). -/
def add_or_update_run (devices : List Dict) (info : Dict) (subs : List Subscriber) :
    Except Nat (List Dict × List Nat) :=
  let l := upsertList devices info
  let r := notify_device_changed subs
  match r.2 with
  | some e => .error e
  | none => .ok (l, r.1)

/-! ## mDNS discovery cache (ADBController.start_mdns_discovery, adb_manager.py)

`handle_found` keeps, per address, a dict with whichever of pair_port and
connect_port has been seen; once both are present it invokes `on_device_found`
and deletes the entry.  `make_handler` reacts only to
`ServiceStateChange.Added`, so service-removal events do not touch the cache.
We model the events concerning one fixed address. -/

/-- One zeroconf service event for the address under consideration. -/
inductive DiscEvent where
  | pairAdded (port : Nat)
  | connectAdded (port : Nat)
  | connectRemoved
deriving DecidableEq

/-- The per-address cache entry of the `discovered` dict. -/
structure DiscEntry where
  pair_port : Option Nat
  connect_port : Option Nat
deriving DecidableEq

/-- One step of `handle_found` for the address: store the advertised port into
the entry (creating it if absent); if both ports are now known, fire the
callback and delete the entry.  Removal events are ignored by this code path.
Returns the new cache entry and whether `on_device_found` fired. -/
def handle_found : Option DiscEntry → DiscEvent → Option DiscEntry × Bool
  | st, .pairAdded p =>
    match st with
    | some ⟨_, some c⟩ => (none, true)
    | some ⟨_, none⟩ => (some ⟨some p, none⟩, false)
    | none => (some ⟨some p, none⟩, false)
  | st, .connectAdded p =>
    match st with
    | some ⟨some q, _⟩ => (none, true)
    | some ⟨none, _⟩ => (some ⟨none, some p⟩, false)
    | none => (some ⟨none, some p⟩, false)
  | st, .connectRemoved => (st, false)

/-- Process a sequence of service events for the address, counting how often
`on_device_found` fires. -/
def runDiscovery (st : Option DiscEntry) : List DiscEvent → Nat
  | [] => 0
  | e :: rest =>
    let r := handle_found st e
    (if r.2 then 1 else 0) + runDiscovery r.1 rest

/-- Number of pairing-service add-events in a sequence. -/
def countPairAdds : List DiscEvent → Nat
  | [] => 0
  | .pairAdded _ :: rest => countPairAdds rest + 1
  | _ :: rest => countPairAdds rest

/-- Number of connect-service add-events in a sequence. -/
def countConnectAdds : List DiscEvent → Nat
  | [] => 0
  | .connectAdded _ :: rest => countConnectAdds rest + 1
  | _ :: rest => countConnectAdds rest

/-- Number of connect-service removal events in a sequence. -/
def countConnectRemovals : List DiscEvent → Nat
  | [] => 0
  | .connectRemoved :: rest => countConnectRemovals rest + 1
  | _ :: rest => countConnectRemovals rest

/-! ## Mirroring session manager (ScrcpyManager, scrcpy_runner.py) -/

/-- A tracked scrcpy child process: an identifier (to distinguish process
objects) and whether `poll()` still returns `None` (process alive). -/
structure Proc where
  pid : Nat
  alive : Bool
deriving DecidableEq

/-- The singleton's `self.processes` dict, keyed by serial. -/
def SessionMap : Type := String → Option Proc

/-- Removal of a slot (`del self.processes[serial]`). -/
def SessionMap.erase (m : SessionMap) (serial : String) : SessionMap :=
  fun k => if k = serial then none else m k

/-- Insertion of a slot (`self.processes[serial] = proc`). -/
def SessionMap.insert (m : SessionMap) (serial : String) (p : Proc) : SessionMap :=
  fun k => if k = serial then some p else m k

/-- How the terminate/wait sequence of `stop_mirror` ended: graceful exit
within 5 s, force-kill after the wait timed out, or an exception (caught and
logged). -/
inductive StopOutcome where
  | graceful
  | timedOutKilled
  | errored
deriving DecidableEq

/-- `ScrcpyManager.start_mirror` for a given serial.  If a tracked process is
still alive, return True at once; a dead tracked process is reaped first.
`spawn` is the outcome of `subprocess.Popen` for the built command line
(`none` models the spawn raising, which the source catches and turns into a
False return).  Returns (new session map, return value, whether a process was
spawned). -/
def start_mirror (m : SessionMap) (serial : String) (spawn : Option Proc) :
    SessionMap × Bool × Bool :=
  match m serial with
  | some p =>
    if p.alive then (m, true, false)
    else
      match spawn with
      | some q => ((m.erase serial).insert serial q, true, true)
      | none => (m.erase serial, false, false)
  | none =>
    match spawn with
    | some q => (m.insert serial q, true, true)
    | none => (m, false, false)

/-- `ScrcpyManager.stop_mirror`: when a process is tracked for the serial, the
terminate/wait(5)/kill sequence runs with all exceptions caught, and the
`finally` block always deletes the slot; the call returns True.  When no
process is tracked, the map is untouched and the call returns False. -/
def stop_mirror (m : SessionMap) (serial : String) (outcome : StopOutcome) :
    SessionMap × Bool :=
  match m serial with
  | some _ => (m.erase serial, true)
  | none => (m, false)

/-! ## Pairing handshake (ADBController.pair_device, adb_manager.py) -/

/-- The result of one `adb connect` attempt: the child process either exceeded
the configured timeout (`subprocess.run` raises `subprocess.TimeoutExpired`)
or completed with a combined stdout+stderr text. -/
inductive ConnectAttempt where
  | timedOut
  | completed (out : String)

/-- Success criterion for an adb connect attempt, applied to the lowercased
combined output: it contains "connected" or "already connected" and does not
contain "unable". -/
def connectOutputOk (out : String) : Bool :=
  let o := pyLower out
  (strContains o "connected" || strContains o "already connected") && !(strContains o "unable")

/-- The connect retry loop of `pair_device` (`for attempt in range(max_retries)`).
`attempts i` is the outcome of the i-th attempt.  A timed-out attempt raises
`subprocess.TimeoutExpired`, which the loop does not catch (`Except.error`).
Returns whether some attempt succeeded. -/
def connectLoop (attempts : Nat → ConnectAttempt) (i : Nat) : Nat → Except Unit Bool
  | 0 => .ok false
  | fuel + 1 =>
    match attempts i with
    | .timedOut => .error ()
    | .completed out =>
      if connectOutputOk out then .ok true
      else connectLoop attempts (i + 1) fuel

/-- `ADBController.pair_device`.  Step 1 (the `adb pair` invocation) is logged
but never changes the control flow, whatever `pairOk` is.  Step 2 is the
connect retry loop; if it never succeeds, the call returns False and the
registry is untouched.  On success, steps 3-4 fetch the device properties and
save the merged record `deviceInfo` through
`DeviceStore.add_or_update_device`.  An uncaught `TimeoutExpired` from step 2
escapes the call (`Except.error`). -/
def pair_device (pairOk : Bool) (attempts : Nat → ConnectAttempt)
    (max_retries : Nat) (deviceInfo : Dict) (registry : List Dict) :
    Except Unit (Bool × List Dict) :=
  match connectLoop attempts 0 max_retries with
  | .error e => .error e
  | .ok false => .ok (false, registry)
  | .ok true => .ok (true, (add_or_update_device registry deviceInfo).1)

/-! ## Device monitor (DeviceMonitor, services/device_monitor.py)

The monitor keeps its own paired-device cache (`self._paired_devices`, filled
by `set_paired_devices` with copies of the registry fields), the connected-set
(`self._connected_devices`), and a per-address discovery cache
(`self._discovered_services`).  The persisted registry (the `DeviceStore`
list) is carried along in the world to make explicit which state each code
path touches. -/

/-- A registered monitor event listener: an identifier and whether invoking it
raises (every dispatch loop in the monitor catches per-listener exceptions). -/
structure Listener where
  id : Nat
  raises : Bool
deriving DecidableEq

/-- Which mDNS service category an event belongs to. -/
inductive ServiceKind where
  | connect
  | pair
deriving DecidableEq

/-- An observable effect of the monitor: a listener invocation or an
`adb connect` attempt. -/
inductive MonEvent where
  | foundCb (id : Nat) (address : String) (port : Int) (kind : ServiceKind)
  | connectAttempt (address : String) (port : Int)
  | connectedCb (id : Nat) (address : String) (port : Int)
  | lostCb (id : Nat) (address : String)
deriving DecidableEq

/-- Python set insertion for the connected-set. -/
def addrSetInsert (l : List String) (a : String) : List String :=
  if l.contains a then l else l ++ [a]

/-- The monitor's mutable state plus the `DeviceStore` registry list. -/
structure MonitorWorld where
  paired : String → Option (Option Int)
  connected : List String
  discovered : String → Option (Option Int × Option Int)
  auto_connect : Bool
  foundListeners : List Listener
  connectedListeners : List Listener
  lostListeners : List Listener
  registry : List Dict

/-- `DeviceMonitor._auto_connect_to_device`.  `adbOut` is the combined output
of the single `adb connect` subprocess (`none` when it raised; the source
catches and logs that).  On a successful output the address joins the
connected-set, every connected-listener is invoked (each inside its own
try/except), and if the cached connect_port differs from the discovered port,
the entry in the monitor's `_paired_devices` cache is overwritten with the new
port.  Nothing in this function touches the `DeviceStore` registry. -/
def auto_connect_to_device (w : MonitorWorld) (address : String) (port : Int)
    (adbOut : Option String) : MonitorWorld × List MonEvent :=
  match w.paired address with
  | none => (w, [])
  | some cachedPort =>
    match adbOut with
    | none => (w, [.connectAttempt address port])
    | some out =>
      if connectOutputOk out then
        let w1 := { w with connected := addrSetInsert w.connected address }
        let cbEvents := w.connectedListeners.map fun c => MonEvent.connectedCb c.id address port
        let w2 :=
          if cachedPort ≠ some port then
            { w1 with paired := fun a => if a = address then some (some port) else w1.paired a }
          else w1
        (w2, .connectAttempt address port :: cbEvents)
      else (w, [.connectAttempt address port])

/-- `DeviceMonitor._handle_device_discovered`: store the advertised port in the
per-address discovery cache, invoke every found-listener (each inside its own
try/except), and, when auto-connect is enabled, the address is in the paired
cache, the event is for the connect service and the address is not in the
connected-set, run the single auto-connect attempt. -/
def handle_device_discovered (w : MonitorWorld) (address : String) (port : Int)
    (kind : ServiceKind) (adbOut : Option String) : MonitorWorld × List MonEvent :=
  let entry := (w.discovered address).getD (none, none)
  let entry :=
    match kind with
    | .connect => (some port, entry.2)
    | .pair => (entry.1, some port)
  let w := { w with discovered := fun a => if a = address then some entry else w.discovered a }
  let foundEvents := w.foundListeners.map fun c => MonEvent.foundCb c.id address port kind
  if w.auto_connect && (w.paired address).isSome then
    if kind == ServiceKind.connect && !(w.connected.contains address) then
      let r := auto_connect_to_device w address port adbOut
      (r.1, foundEvents ++ r.2)
    else (w, foundEvents)
  else (w, foundEvents)

/-- Python `serial.rsplit(":", 1)[0]` guarded by `":" in serial`: the part of
the serial before the last colon, or `none` when it has no colon. -/
def rsplitAddr (serial : String) : Option String :=
  let r := serial.data.reverse
  if r.contains ':' then
    some (String.mk (((r.dropWhile (fun c => !(c == ':'))).drop 1).reverse))
  else none

/-- Splitting a character list at every occurrence of one character (the
shape of Python's `splitlines` and `split("\t")` for these inputs). -/
def splitChar (c : Char) : List Char → List (List Char)
  | [] => [[]]
  | x :: xs =>
    let r := splitChar c xs
    if x == c then [] :: r
    else
      match r with
      | [] => [[x]]
      | y :: ys => (x :: y) :: ys

/-- Parsing of `adb devices` output in `_monitor_connections`: for every line
containing a tab followed by "device", take the text before the first tab as
the serial and, when it contains a colon, add the address part to the set. -/
def parseAdbDevices (stdout : String) : List String :=
  ((splitChar (Char.ofNat 10) stdout.data).map String.mk).foldl
    (fun acc line =>
      if strContains line "\tdevice" then
        match rsplitAddr
            (((splitChar (Char.ofNat 9) line.data).map String.mk).headD "") with
        | some address => addrSetInsert acc address
        | none => acc
      else acc)
    []

/-- One iteration of the `DeviceMonitor._monitor_connections` poll loop.
`result` is the outcome of the `adb devices` query: `none` models a raised
exception or a nonzero return code (caught/logged; nothing changes), `some
stdout` the success path.  On success the connected-set is replaced by the
parsed listing, and for every address of the previous set absent from the new
one, every lost-listener is invoked.  Returns the new connected-set (which
also becomes the next `previous_connected`) and the events. -/
def monitor_connections_step (lostListeners : List Listener)
    (previous : List String) (result : Option String) :
    List String × List MonEvent :=
  match result with
  | none => (previous, [])
  | some stdout =>
    let current := parseAdbDevices stdout
    let lost := previous.filter fun a => !(current.contains a)
    (current, lost.flatMap fun a => lostListeners.map fun c => MonEvent.lostCb c.id a)

/-! ## Tray status snapshot (send_devices_to_tray, lib/tray_controller.py) -/

/-- One entry of the `devices` array in the status-channel JSON snapshot. -/
structure StatusEntry where
  name : PyVal
  address : Option PyVal
  connected : Bool
  mirroring : Bool
  model : Option PyVal
  manufacturer : Option PyVal
  android_version : Option PyVal
deriving DecidableEq

/-- The loop body of `send_devices_to_tray` for one registry record:
`connected` and `mirroring` default to False and are computed from the live
connection check and the session manager only when both the address and the
connect_port are truthy; the identity fields are read from the record
(`name` defaulting to "Unknown Device"). -/
def buildEntry (connCheck mirrorCheck : PyVal → PyVal → Bool) (d : Dict) :
    StatusEntry :=
  let flags : Bool × Bool :=
    match d "address", d "connect_port" with
    | some a, some p =>
      if truthyVal a && truthyVal p then (connCheck a p, mirrorCheck a p)
      else (false, false)
    | _, _ => (false, false)
  { name := (d "name").getD (.vs "Unknown Device")
    address := d "address"
    connected := flags.1
    mirroring := flags.2
    model := d "model"
    manufacturer := d "manufacturer"
    android_version := d "android_version" }

/-- `send_devices_to_tray`: one status entry per registry record, in order. -/
def send_devices_to_tray (connCheck mirrorCheck : PyVal → PyVal → Bool)
    (devices : List Dict) : List StatusEntry :=
  devices.map (buildEntry connCheck mirrorCheck)

/-- A JSON value, for the shape of the snapshot document. -/
inductive Json where
  | jnull
  | jbool (b : Bool)
  | jint (n : Int)
  | jstr (s : String)
  | jarr (items : List Json)
  | jobj (fields : List (String × Json))

/-- JSON serialization of a scalar. -/
def pyValJson : PyVal → Json
  | .vs s => .jstr s
  | .vn n => .jint n
  | .vb b => .jbool b

/-- JSON serialization of an optional scalar (`None` becomes null). -/
def optJson : Option PyVal → Json
  | none => .jnull
  | some v => pyValJson v

/-- JSON serialization of one status entry, with the keys in source order. -/
def entryJson (e : StatusEntry) : Json :=
  .jobj [("name", pyValJson e.name), ("address", optJson e.address),
         ("connected", .jbool e.connected), ("mirroring", .jbool e.mirroring),
         ("model", optJson e.model), ("manufacturer", optJson e.manufacturer),
         ("android_version", optJson e.android_version)]

/-- The full status-channel message: `json.dumps({"devices": device_status})`. -/
def statusMessage (connCheck mirrorCheck : PyVal → PyVal → Bool)
    (devices : List Dict) : Json :=
  .jobj [("devices", .jarr ((send_devices_to_tray connCheck mirrorCheck devices).map entryJson))]

/-! ## Properties of the device registry -/

/-- Merging `r` into `r` itself changes nothing. -/
lemma dict_update_self (r : Dict) : Dict.update r r = r := by
  funext k
  cases h : r k <;> simp [Dict.update, h, Option.orElse]

/-- Merging the same record twice is the same as merging it once. -/
lemma dict_update_update (d r : Dict) :
    Dict.update (Dict.update d r) r = Dict.update d r := by
  funext k
  cases h : r k <;> simp [Dict.update, h, Option.orElse]

/-- Merging a record whose "address" matches keeps the "address". -/
lemma dict_update_address (d r : Dict) (h : d "address" = r "address") :
    Dict.update d r "address" = d "address" := by
  cases hr : r "address" with
  | none => simp [Dict.update, hr, Option.orElse]
  | some v => simp [Dict.update, hr, Option.orElse, h]

/-- After an upsert, the registry has exactly one record with the upserted
address, provided it had at most one before. -/
lemma upsert_countP_eq_one (l : List Dict) (r : Dict)
    (h : l.countP (fun d => decide (d "address" = r "address")) ≤ 1) :
    (upsertList l r).countP (fun d => decide (d "address" = r "address")) = 1 := by
  induction l with
  | nil => simp [upsertList]
  | cons d rest ih =>
    by_cases hd : d "address" = r "address"
    · have hp : (fun x : Dict => decide (x "address" = r "address")) d = true := by
        simpa using hd
      rw [List.countP_cons_of_pos (fun x : Dict => decide (x "address" = r "address")) rest hp] at h
      have hrest : rest.countP (fun x : Dict => decide (x "address" = r "address")) = 0 :=
        Nat.lt_one_iff.mp h
      have hp2 : (fun x : Dict => decide (x "address" = r "address")) (Dict.update d r) = true := by
        simp only [decide_eq_true_eq, dict_update_address d r hd]
        exact hd
      simp only [upsertList, if_pos hd]
      rw [List.countP_cons_of_pos (fun x : Dict => decide (x "address" = r "address")) rest hp2,
        hrest]
    · have hp : ¬ (fun x : Dict => decide (x "address" = r "address")) d = true := by
        simpa using hd
      rw [List.countP_cons_of_neg (fun x : Dict => decide (x "address" = r "address")) rest hp] at h
      simp only [upsertList, if_neg hd]
      rw [List.countP_cons_of_neg (fun x : Dict => decide (x "address" = r "address"))
        (upsertList rest r) hp]
      exact ih h

/-- A second upsert of an identical record leaves the registry unchanged. -/
lemma upsert_upsert_same (l : List Dict) (r : Dict) :
    upsertList (upsertList l r) r = upsertList l r := by
  induction l with
  | nil => simp [upsertList, dict_update_self]
  | cons d rest ih =>
    by_cases hd : d "address" = r "address"
    · have h2 : Dict.update d r "address" = r "address" := by
        rw [dict_update_address d r hd]; exact hd
      simp [upsertList, hd, h2, dict_update_update]
    · simp [upsertList, hd, ih]

/-- Upserting a record whose address is absent appends it. -/
lemma upsert_append_of_absent (l : List Dict) (r : Dict)
    (h : ∀ d ∈ l, d "address" ≠ r "address") : upsertList l r = l ++ [r] := by
  induction l with
  | nil => simp [upsertList]
  | cons d rest ih =>
    have hd : d "address" ≠ r "address" := h d (by simp)
    simp [upsertList, hd, ih fun d hd2 => h d (by simp [hd2])]

/-- Discriminator for the change-notification event. -/
def isNotifiedChange : StoreEvent → Bool
  | .notifiedChange => true
  | _ => false

/-- C4: for every device record r, upsert(r) twice with identical content
leaves exactly one record for r.address (given the registry held at most one
before) and each call produces exactly one change notification; an upsert for
an existing address merges the given fields into the stored record (fields
absent from r are kept, fields present in r overwrite), and an upsert for an
absent address appends a new record, so the registry keeps at most one record
per address. -/
theorem c4_upsert_idempotent (l : List Dict) (r : Dict)
    (huniq : l.countP (fun d => decide (d "address" = r "address")) ≤ 1) :
    ((upsertList l r).countP (fun d => decide (d "address" = r "address")) = 1) ∧
    upsertList (upsertList l r) r = upsertList l r ∧
    ((add_or_update_device l r).2.countP isNotifiedChange = 1 ∧
      (add_or_update_device (upsertList l r) r).2.countP isNotifiedChange = 1) ∧
    (∀ d : Dict, ∀ k, r k = none → Dict.update d r k = d k) ∧
    (∀ d : Dict, ∀ k v, r k = some v → Dict.update d r k = some v) ∧
    ((∀ d ∈ l, d "address" ≠ r "address") → upsertList l r = l ++ [r]) := by
  refine ⟨upsert_countP_eq_one l r huniq, upsert_upsert_same l r, ⟨?_, ?_⟩, ?_, ?_,
    upsert_append_of_absent l r⟩
  · simp [add_or_update_device, isNotifiedChange]
  · simp [add_or_update_device, isNotifiedChange]
  · intro d k hk
    simp [Dict.update, hk, Option.orElse]
  · intro d k v hk
    simp [Dict.update, hk, Option.orElse]

/-- Concrete registry record for the witnesses: a paired device. -/
def w4base : Dict := (Dict.empty.set "address" (.vs "192.168.1.5")).set "name" (.vs "Pixel 7")

/-- Concrete upsert payload: same address, one new field, no "name". -/
def w4info : Dict := (Dict.empty.set "address" (.vs "192.168.1.5")).set "connect_port" (.vn 5555)

/-- Witness for C4 at a concrete one-record registry: the upsert leaves one
record for the address, keeps the stored "name" and adopts the new
"connect_port". -/
theorem c4_upsert_idempotent_witness :
    ((upsertList [w4base] w4info).countP
      (fun d => decide (d "address" = w4info "address")) = 1) ∧
    Dict.update w4base w4info "name" = some (.vs "Pixel 7") ∧
    Dict.update w4base w4info "connect_port" = some (.vn 5555) := by
  have h := c4_upsert_idempotent [w4base] w4info (by decide)
  exact ⟨h.1, h.2.2.2.1 w4base "name" (by decide),
    h.2.2.2.2.1 w4base "connect_port" (.vn 5555) (by decide)⟩

/-- C10: removing an address that has no record leaves the in-memory list
unchanged and issues no disconnect, yet still saves the registry file and
fires the change notification (plus the desktop notification), exactly as for
a real removal. -/
theorem c10_remove_absent (devices : List Dict) (address : String) (ado : Option String)
    (habsent : devices.find? (fun d => decide (d "address" = some (.vs address))) = none) :
    (remove_device devices address ado).1 = devices ∧
    (remove_device devices address ado).2 =
      [.savedFile, .notifiedChange, .desktopNotification "Device removed"] := by
  have hall := List.find?_eq_none.mp habsent
  constructor
  · show devices.filter (fun d => !(decide (d "address" = some (.vs address)))) = devices
    apply List.filter_eq_self.mpr
    intro d hd
    simpa using hall d hd
  · simp [remove_device, habsent]

/-- Witness for C10: removing an unknown address from a one-record registry. -/
theorem c10_remove_absent_witness :
    (remove_device [w4base] "10.9.9.9" (some "10.9.9.9:5555\tdevice")).1 = [w4base] ∧
    (remove_device [w4base] "10.9.9.9" (some "10.9.9.9:5555\tdevice")).2 =
      [.savedFile, .notifiedChange, .desktopNotification "Device removed"] :=
  c10_remove_absent [w4base] "10.9.9.9" (some "10.9.9.9:5555\tdevice") (by rfl)

/-- C8: removing a stored device that the live `adb devices` listing reports
(its serial occurs in the output) issues a disconnect for that serial before
the save; removing one the listing does not report issues no disconnect; in
both cases the record is gone afterwards and the save and change notification
happen. -/
theorem c8_remove_disconnects (devices : List Dict) (address : String) (d : Dict)
    (cp : PyVal) (out : String)
    (hfind : devices.find? (fun x => decide (x "address" = some (.vs address))) = some d)
    (hcp : d "connect_port" = some cp) (htr : truthyVal cp = true) :
    (strContains out (address ++ ":" ++ pyStr cp) = true →
      (remove_device devices address (some out)).2 =
        [.disconnectIssued (address ++ ":" ++ pyStr cp), .savedFile, .notifiedChange,
         .desktopNotification "Device removed"]) ∧
    (strContains out (address ++ ":" ++ pyStr cp) = false →
      (remove_device devices address (some out)).2 =
        [.savedFile, .notifiedChange, .desktopNotification "Device removed"]) ∧
    (∀ ado, (remove_device devices address ado).1.find?
        (fun x => decide (x "address" = some (.vs address))) = none ∧
      StoreEvent.savedFile ∈ (remove_device devices address ado).2 ∧
      StoreEvent.notifiedChange ∈ (remove_device devices address ado).2) := by
  refine ⟨fun hconn => ?_, fun hnc => ?_, fun ado => ⟨?_, ?_, ?_⟩⟩
  · simp [remove_device, hfind, hcp, htr, hconn]
  · simp [remove_device, hfind, hcp, htr, hnc]
  · show (devices.filter
        (fun x => !(decide (x "address" = some (.vs address))))).find?
        (fun x => decide (x "address" = some (.vs address))) = none
    apply List.find?_eq_none.mpr
    intro x hx
    have := (List.mem_filter.mp hx).2
    simpa using this
  · simp [remove_device]
  · simp [remove_device]

/-- Concrete stored device for the C8 witness. -/
def c8dev : Dict := (Dict.empty.set "address" (.vs "10.0.0.7")).set "connect_port" (.vn 5555)

/-- Witness for C8: one listing output that contains the serial, one that does
not. -/
theorem c8_remove_disconnects_witness :
    ((remove_device [c8dev] "10.0.0.7"
        (some "List of devices attached\n10.0.0.7:5555\tdevice\n")).2 =
      [.disconnectIssued ("10.0.0.7" ++ ":" ++ pyStr (.vn 5555)), .savedFile, .notifiedChange,
       .desktopNotification "Device removed"]) ∧
    ((remove_device [c8dev] "10.0.0.7" (some "List of devices attached\n")).2 =
      [.savedFile, .notifiedChange, .desktopNotification "Device removed"]) ∧
    ((remove_device [c8dev] "10.0.0.7"
        (some "List of devices attached\n10.0.0.7:5555\tdevice\n")).1.find?
      (fun x => decide (x "address" = some (.vs "10.0.0.7"))) = none) := by
  have h1 := c8_remove_disconnects [c8dev] "10.0.0.7" c8dev (.vn 5555)
    "List of devices attached\n10.0.0.7:5555\tdevice\n" (by rfl) (by decide) (by decide)
  have h2 := c8_remove_disconnects [c8dev] "10.0.0.7" c8dev (.vn 5555)
    "List of devices attached\n" (by rfl) (by decide) (by decide)
  exact ⟨h1.1 (by decide), h2.2.1 (by decide),
    (h1.2.2 (some "List of devices attached\n10.0.0.7:5555\tdevice\n")).1⟩

/-! ## Properties of the mirroring session manager -/

/-- C2: at most one live process per serial — starting while a live process is
tracked returns True, spawns nothing and leaves the session map unchanged;
stopping an untracked serial leaves the map unchanged and returns False (the
"nothing to stop" report); stopping a tracked serial always clears the slot
and returns True, whichever way the terminate/wait/kill sequence went. -/
theorem c2_session_invariants (m : SessionMap) (serial : String) (p : Proc)
    (spawn : Option Proc) (outcome : StopOutcome) :
    (m serial = some p → p.alive = true → start_mirror m serial spawn = (m, true, false)) ∧
    (m serial = none → stop_mirror m serial outcome = (m, false)) ∧
    (m serial = some p →
      (stop_mirror m serial outcome).1 serial = none ∧
      (stop_mirror m serial outcome).2 = true) := by
  refine ⟨fun h ha => ?_, fun h => ?_, fun h => ?_⟩
  · simp [start_mirror, h, ha]
  · simp [stop_mirror, h]
  · simp [stop_mirror, h, SessionMap.erase]

/-- Concrete session map for the C2 witness: one live process. -/
def demoSessions : SessionMap := SessionMap.insert (fun _ => none) "10.0.0.7:5555" ⟨7, true⟩

/-- Witness for C2 at a concrete one-session map. -/
theorem c2_session_invariants_witness :
    start_mirror demoSessions "10.0.0.7:5555" none = (demoSessions, true, false) ∧
    stop_mirror demoSessions "10.0.0.9:5555" .graceful = (demoSessions, false) ∧
    ((stop_mirror demoSessions "10.0.0.7:5555" .timedOutKilled).1 "10.0.0.7:5555" = none ∧
      (stop_mirror demoSessions "10.0.0.7:5555" .timedOutKilled).2 = true) := by
  refine ⟨?_, ?_, ?_⟩
  · exact (c2_session_invariants demoSessions "10.0.0.7:5555" ⟨7, true⟩ none .graceful).1
      (by decide) (by decide)
  · exact (c2_session_invariants demoSessions "10.0.0.9:5555" ⟨7, true⟩ none .graceful).2.1
      (by decide)
  · exact (c2_session_invariants demoSessions "10.0.0.7:5555" ⟨7, true⟩ none .timedOutKilled).2.2
      (by decide)

/-! ## Properties of the discovery cache -/

/-- C1 counterexample: four add-events and no connect-service removal make
`on_device_found` fire twice — the cache entry resets when the callback fires,
not on a removal event, so "at most once until a removal" fails. -/
theorem c1_counterexample :
    countConnectRemovals
      [DiscEvent.pairAdded 40000, .connectAdded 5555, .pairAdded 40001, .connectAdded 5556] = 0 ∧
    runDiscovery none
      [DiscEvent.pairAdded 40000, .connectAdded 5555, .pairAdded 40001, .connectAdded 5556] = 2 := by
  exact ⟨rfl, rfl⟩

/-- Whether the entry currently holds a pairing port. -/
def pairTokens : Option DiscEntry → Nat
  | some ⟨some _, _⟩ => 1
  | _ => 0

/-- Whether the entry currently holds a connect port. -/
def connectTokens : Option DiscEntry → Nat
  | some ⟨_, some _⟩ => 1
  | _ => 0

/-- Every fire consumes a pairing port that arrived by add-event or was
already cached. -/
lemma runDiscovery_le_pair (evs : List DiscEvent) : ∀ st : Option DiscEntry,
    runDiscovery st evs ≤ pairTokens st + countPairAdds evs := by
  induction evs with
  | nil =>
    intro st
    simp [runDiscovery]
  | cons e rest ih =>
    intro st
    cases e with
    | pairAdded p =>
      rcases st with _ | ⟨a, c⟩
      · have h := ih (some ⟨some p, none⟩)
        simp [runDiscovery, handle_found, countPairAdds, pairTokens] at h ⊢
        omega
      · cases c with
        | none =>
          have h := ih (some ⟨some p, none⟩)
          cases a <;>
            · simp [runDiscovery, handle_found, countPairAdds, pairTokens] at h ⊢
              omega
        | some cv =>
          have h := ih none
          cases a <;>
            · simp [runDiscovery, handle_found, countPairAdds, pairTokens] at h ⊢
              omega
    | connectAdded p =>
      rcases st with _ | ⟨a, c⟩
      · have h := ih (some ⟨none, some p⟩)
        simp [runDiscovery, handle_found, countPairAdds, pairTokens] at h ⊢
        omega
      · cases a with
        | none =>
          have h := ih (some ⟨none, some p⟩)
          cases c <;>
            · simp [runDiscovery, handle_found, countPairAdds, pairTokens] at h ⊢
              omega
        | some av =>
          have h := ih none
          cases c <;>
            · simp [runDiscovery, handle_found, countPairAdds, pairTokens] at h ⊢
              omega
    | connectRemoved =>
      have h := ih st
      simp [runDiscovery, handle_found, countPairAdds] at h ⊢
      omega

/-- Every fire consumes a connect port that arrived by add-event or was
already cached. -/
lemma runDiscovery_le_connect (evs : List DiscEvent) : ∀ st : Option DiscEntry,
    runDiscovery st evs ≤ connectTokens st + countConnectAdds evs := by
  induction evs with
  | nil =>
    intro st
    simp [runDiscovery]
  | cons e rest ih =>
    intro st
    cases e with
    | pairAdded p =>
      rcases st with _ | ⟨a, c⟩
      · have h := ih (some ⟨some p, none⟩)
        simp [runDiscovery, handle_found, countConnectAdds, connectTokens] at h ⊢
        omega
      · cases c with
        | none =>
          have h := ih (some ⟨some p, none⟩)
          cases a <;>
            · simp [runDiscovery, handle_found, countConnectAdds, connectTokens] at h ⊢
              omega
        | some cv =>
          have h := ih none
          cases a <;>
            · simp [runDiscovery, handle_found, countConnectAdds, connectTokens] at h ⊢
              omega
    | connectAdded p =>
      rcases st with _ | ⟨a, c⟩
      · have h := ih (some ⟨none, some p⟩)
        simp [runDiscovery, handle_found, countConnectAdds, connectTokens] at h ⊢
        omega
      · cases a with
        | none =>
          have h := ih (some ⟨none, some p⟩)
          cases c <;>
            · simp [runDiscovery, handle_found, countConnectAdds, connectTokens] at h ⊢
              omega
        | some av =>
          have h := ih none
          cases c <;>
            · simp [runDiscovery, handle_found, countConnectAdds, connectTokens] at h ⊢
              omega
    | connectRemoved =>
      have h := ih st
      simp [runDiscovery, handle_found, countConnectAdds] at h ⊢
      omega

/-- C1 (amended): over any interleaving of add-events for the two services on
one address, `on_device_found` fires at most min(N, M) times; each firing
deletes the address's cache entry (so one resolution cannot fire twice); and
connect-service removal events are ignored by this discovery path — the cache
resets when the callback fires, not on removal. -/
theorem c1_discovery_fire_bound (evs : List DiscEvent) :
    runDiscovery none evs ≤ min (countPairAdds evs) (countConnectAdds evs) ∧
    (∀ st e, (handle_found st e).2 = true → (handle_found st e).1 = none) ∧
    (∀ st, handle_found st .connectRemoved = (st, false)) := by
  refine ⟨?_, ?_, fun st => rfl⟩
  · have h1 := runDiscovery_le_pair evs none
    have h2 := runDiscovery_le_connect evs none
    simp [pairTokens, connectTokens] at h1 h2
    omega
  · intro st e h
    cases e with
    | pairAdded p =>
      rcases st with _ | ⟨a, c⟩
      · simp [handle_found] at h
      · cases c with
        | none => simp [handle_found] at h
        | some cv => simp [handle_found]
    | connectAdded p =>
      rcases st with _ | ⟨a, c⟩
      · simp [handle_found] at h
      · cases a with
        | none => simp [handle_found] at h
        | some av => simp [handle_found]
    | connectRemoved => simp [handle_found] at h

/-- Witness for C1: a firing step (second service resolves) leaves no cache
entry behind. -/
theorem c1_discovery_fire_bound_witness :
    (handle_found (some ⟨some 40000, none⟩) (.connectAdded 5555)).2 = true ∧
    (handle_found (some ⟨some 40000, none⟩) (.connectAdded 5555)).1 = none :=
  ⟨by decide,
   (c1_discovery_fire_bound []).2.1 (some ⟨some 40000, none⟩) (.connectAdded 5555) (by decide)⟩

/-! ## Properties of the change notification -/

/-- C5 counterexample: with a raising first subscriber and a second subscriber
behind it, the exception escapes the upsert call and the second subscriber is
never notified — `notify_device_changed` has no try/except around the
callback invocations. -/
theorem c5_counterexample :
    add_or_update_run [] Dict.empty [⟨0, true⟩, ⟨1, false⟩] = .error 0 ∧
    (notify_device_changed [⟨0, true⟩, ⟨1, false⟩]).1 = [0] := by
  exact ⟨rfl, rfl⟩

/-- C5 (amended): change notification is synchronous and in registration
order; when no subscriber raises, all subscribers are notified in order and
the upsert call completes normally; when one raises, its exception propagates
to the caller of the upsert and the subscribers registered after it are not
notified. -/
theorem c5_notify_order_and_propagation (devices : List Dict) (info : Dict)
    (subs : List Subscriber) :
    ((∀ c ∈ subs, c.raises = false) →
      notify_device_changed subs = (subs.map Subscriber.id, none) ∧
      add_or_update_run devices info subs =
        .ok (upsertList devices info, subs.map Subscriber.id)) ∧
    (∀ pre c post, subs = pre ++ c :: post → (∀ b ∈ pre, b.raises = false) →
      c.raises = true →
      notify_device_changed subs = (pre.map Subscriber.id ++ [c.id], some c.id) ∧
      add_or_update_run devices info subs = .error c.id) := by
  constructor
  · intro hok
    have hn : notify_device_changed subs = (subs.map Subscriber.id, none) := by
      induction subs with
      | nil => rfl
      | cons b rest ih =>
        have hb : b.raises = false := hok b (by simp)
        have hr := ih fun c hc => hok c (by simp [hc])
        simp [notify_device_changed, hb, hr]
    exact ⟨hn, by simp [add_or_update_run, hn]⟩
  · intro pre c post hsubs hpre hc
    subst hsubs
    have hn : notify_device_changed (pre ++ c :: post) =
        (pre.map Subscriber.id ++ [c.id], some c.id) := by
      induction pre with
      | nil => simp [notify_device_changed, hc]
      | cons b rest ih =>
        have hb : b.raises = false := hpre b (by simp)
        have hr := ih fun x hx => hpre x (by simp [hx])
        simp [notify_device_changed, hb, hr]
    exact ⟨hn, by simp [add_or_update_run, hn]⟩

/-- Witness for C5 (amended): all-ok subscribers are all notified in order;
a raising second subscriber makes the upsert call raise its exception. -/
theorem c5_notify_order_and_propagation_witness :
    notify_device_changed [⟨0, false⟩, ⟨1, false⟩] = ([0, 1], none) ∧
    add_or_update_run [] Dict.empty [⟨2, false⟩, ⟨3, true⟩] = .error 3 := by
  constructor
  · exact ((c5_notify_order_and_propagation [] Dict.empty
      [⟨0, false⟩, ⟨1, false⟩]).1 (by decide)).1
  · exact ((c5_notify_order_and_propagation [] Dict.empty
      [⟨2, false⟩, ⟨3, true⟩]).2 [⟨2, false⟩] ⟨3, true⟩ [] rfl (by decide) (by decide)).2

/-! ## Properties of the pairing handshake -/

/-- C3: evaluating `pair_device` at the failing input.  A first-attempt
timeout makes the call raise (`Except.error`, the uncaught
`subprocess.TimeoutExpired` — the claim says it should return False); when
every attempt completes unsuccessfully instead, the call does return False
and leaves the registry untouched. -/
theorem c3_pair_device_timeout_escapes :
    pair_device true (fun _ => .timedOut) 5 Dict.empty [] = .error () ∧
    pair_device true (fun _ => .completed "failed to connect to 10.0.0.7:5555") 5
      Dict.empty [w4base] = .ok (false, [w4base]) := by
  exact ⟨rfl, rfl⟩

/-- The part of C3 that does hold, in general: when every attempt within the
retry budget completes with an unsuccessful output (no timeout), `pair_device`
returns False and the registry is exactly what it was. -/
theorem c3_pair_device_failure_no_mutation (attempts : Nat → ConnectAttempt)
    (max_retries : Nat) (pairOk : Bool) (deviceInfo : Dict) (registry : List Dict)
    (hcompl : ∀ i, ∃ out, attempts i = .completed out ∧ connectOutputOk out = false) :
    pair_device pairOk attempts max_retries deviceInfo registry = .ok (false, registry) := by
  have hloop : ∀ fuel i, connectLoop attempts i fuel = .ok false := by
    intro fuel
    induction fuel with
    | zero => intro i; rfl
    | succ n ih =>
      intro i
      obtain ⟨out, hout, hbad⟩ := hcompl i
      simp [connectLoop, hout, hbad, ih]
  simp [pair_device, hloop]

/-! ## Properties of the connection reconciler -/

/-- C7: a successful poll replaces the connected-set wholesale with the parsed
listing (the previous set does not influence the new one), invokes every
lost-listener for every address of the previous set absent from the new one,
and emits nothing but lost-events — no found or connected events come from the
poll loop. -/
theorem c7_poll_wholesale_and_lost (lostListeners : List Listener)
    (previous : List String) (stdout : String) :
    (monitor_connections_step lostListeners previous (some stdout)).1 =
      parseAdbDevices stdout ∧
    (∀ a, a ∈ previous → a ∉ parseAdbDevices stdout → ∀ c ∈ lostListeners,
      MonEvent.lostCb c.id a ∈ (monitor_connections_step lostListeners previous (some stdout)).2) ∧
    (∀ e ∈ (monitor_connections_step lostListeners previous (some stdout)).2,
      ∃ i a, e = MonEvent.lostCb i a) := by
  refine ⟨rfl, ?_, ?_⟩
  · intro a ha hna c hc
    simp only [monitor_connections_step, List.mem_flatMap, List.mem_filter, List.mem_map]
    refine ⟨a, ⟨ha, ?_⟩, c, hc, rfl⟩
    simpa using hna
  · intro e he
    simp only [monitor_connections_step, List.mem_flatMap, List.mem_map] at he
    obtain ⟨a, _, c, _, rfl⟩ := he
    exact ⟨c.id, a, rfl⟩

/-- Witness for C7: a device present before but absent from the new listing
produces a lost-event for the registered listener. -/
theorem c7_poll_wholesale_and_lost_witness :
    (monitor_connections_step [⟨3, false⟩] ["10.0.0.7"] (some "")).1 = parseAdbDevices "" ∧
    MonEvent.lostCb 3 "10.0.0.7" ∈
      (monitor_connections_step [⟨3, false⟩] ["10.0.0.7"] (some "")).2 := by
  have h := c7_poll_wholesale_and_lost [⟨3, false⟩] ["10.0.0.7"] ""
  exact ⟨h.1, h.2.1 "10.0.0.7" (by decide) (by decide) ⟨3, false⟩ (by decide)⟩

/-! ## Properties of the monitor's auto-connect path -/

/-- Discriminator for connect-attempt events. -/
def isConnectAttempt : MonEvent → Bool
  | .connectAttempt _ _ => true
  | _ => false

/-- Concrete device record: the registry copy of the paired device. -/
def c6dev : Dict :=
  ((Dict.empty.set "address" (.vs "10.0.0.7")).set "connect_port" (.vn 5555)).set
    "name" (.vs "Pixel 7")

/-- Concrete monitor world: one paired device cached with port 5555, nothing
connected, auto-connect on, the registry holding the same record. -/
def c6World : MonitorWorld where
  paired := fun a => if a = "10.0.0.7" then some (some 5555) else none
  connected := []
  discovered := fun _ => none
  auto_connect := true
  foundListeners := [⟨0, false⟩]
  connectedListeners := [⟨1, false⟩]
  lostListeners := []
  registry := [c6dev]

/-- C6 counterexample: a connect-service discovery at port 5556 (the stored
port is 5555) with a successful connect adds the address to the connected-set
and rewrites the monitor's paired cache — but the device registry still
records connect_port 5555: the registry record is not updated with the new
port (only the monitor's in-memory copy is).  A pairing-service event meeting
the same conditions issues no connect attempt at all. -/
theorem c6_counterexample :
    ("10.0.0.7" ∈ (handle_device_discovered c6World "10.0.0.7" 5556 .connect
        (some "connected to 10.0.0.7:5556")).1.connected) ∧
    ((handle_device_discovered c6World "10.0.0.7" 5556 .connect
        (some "connected to 10.0.0.7:5556")).1.paired "10.0.0.7" = some (some 5556)) ∧
    ((handle_device_discovered c6World "10.0.0.7" 5556 .connect
        (some "connected to 10.0.0.7:5556")).1.registry.map (fun d => d "connect_port") =
      [some (.vn 5555)]) ∧
    ((handle_device_discovered c6World "10.0.0.7" 40001 .pair none).2.countP
      isConnectAttempt = 0) := by
  refine ⟨by decide, by decide, by decide, by decide⟩

/-- Found-listener invocations are not connect attempts. -/
lemma countP_attempt_found (ls : List Listener) (a : String) (p : Int) (k : ServiceKind) :
    (ls.map fun c => MonEvent.foundCb c.id a p k).countP isConnectAttempt = 0 := by
  apply List.countP_eq_zero.mpr
  intro e he
  obtain ⟨c, hc, rfl⟩ := List.mem_map.mp he
  simp [isConnectAttempt]

/-- Connected-listener invocations are not connect attempts. -/
lemma countP_attempt_connected (ls : List Listener) (a : String) (p : Int) :
    (ls.map fun c => MonEvent.connectedCb c.id a p).countP isConnectAttempt = 0 := by
  apply List.countP_eq_zero.mpr
  intro e he
  obtain ⟨c, hc, rfl⟩ := List.mem_map.mp he
  simp [isConnectAttempt]

/-- Composed form of `countP_attempt_found`, as left by `List.countP_map`. -/
lemma countP_comp_found (ls : List Listener) (a : String) (p : Int) (k : ServiceKind) :
    ls.countP (isConnectAttempt ∘ fun c => MonEvent.foundCb c.id a p k) = 0 := by
  apply List.countP_eq_zero.mpr
  intro c hc
  simp [isConnectAttempt, Function.comp]

/-- Composed form of `countP_attempt_connected`. -/
lemma countP_comp_connected (ls : List Listener) (a : String) (p : Int) :
    ls.countP (isConnectAttempt ∘ fun c => MonEvent.connectedCb c.id a p) = 0 := by
  apply List.countP_eq_zero.mpr
  intro c hc
  simp [isConnectAttempt, Function.comp]

/-- Set insertion puts the address in the connected-set. -/
lemma mem_addrSetInsert_self (l : List String) (a : String) : a ∈ addrSetInsert l a := by
  by_cases h : a ∈ l
  · simp [addrSetInsert, h]
  · simp [addrSetInsert, h]

/-- C6 (amended): for a connect-service discovery event naming an address in
the monitor's paired cache, not in the connected-set, with auto-connect
enabled, exactly one connect attempt is issued (no retries); on success the
address joins the connected-set and every registered connected-listener is
invoked; when the discovered port differs from the cached port, the monitor's
in-memory paired cache entry is overwritten with the new port, while the
device registry is left unchanged by this path.  A pairing-service event
issues no connect attempt. -/
theorem c6_auto_connect_updates_cache_not_registry (w : MonitorWorld)
    (address : String) (port : Int) (cp : Option Int) (out : String)
    (hauto : w.auto_connect = true)
    (hpaired : w.paired address = some cp)
    (hnc : w.connected.contains address = false) :
    (∀ adbOut, (handle_device_discovered w address port .connect adbOut).2.countP
      isConnectAttempt = 1) ∧
    (connectOutputOk out = true →
      address ∈ (handle_device_discovered w address port .connect (some out)).1.connected ∧
      (∀ c ∈ w.connectedListeners, MonEvent.connectedCb c.id address port ∈
        (handle_device_discovered w address port .connect (some out)).2) ∧
      (cp ≠ some port →
        (handle_device_discovered w address port .connect (some out)).1.paired address =
          some (some port)) ∧
      (handle_device_discovered w address port .connect (some out)).1.registry =
        w.registry) ∧
    (∀ adbOut, (handle_device_discovered w address port .pair adbOut).2.countP
      isConnectAttempt = 0) := by
  have hmem : address ∉ w.connected := by simpa using hnc
  refine ⟨fun adbOut => ?_, fun hok => ?_, fun adbOut => ?_⟩
  · cases adbOut with
    | none =>
      simp [handle_device_discovered, auto_connect_to_device, hauto, hpaired, hmem,
        List.countP_append, countP_attempt_found, isConnectAttempt]
    | some o =>
      by_cases ho : connectOutputOk o = true
      · by_cases hcp : cp ≠ some port <;>
          simp [handle_device_discovered, auto_connect_to_device, hauto, hpaired, hmem, ho,
            hcp, List.countP_append, List.countP_cons, countP_attempt_found,
            countP_attempt_connected, countP_comp_found, countP_comp_connected,
            isConnectAttempt]
      · simp [handle_device_discovered, auto_connect_to_device, hauto, hpaired, hmem,
          eq_false_of_ne_true ho, List.countP_append, countP_attempt_found, isConnectAttempt]
  · refine ⟨?_, ?_, ?_, ?_⟩
    · by_cases hcp : cp ≠ some port <;>
        simp [handle_device_discovered, auto_connect_to_device, hauto, hpaired, hmem, hok,
          hcp, mem_addrSetInsert_self]
    · intro c hc
      by_cases hcp : cp ≠ some port <;>
        · simp [handle_device_discovered, auto_connect_to_device, hauto, hpaired, hmem, hok,
            hcp, List.mem_append]
          exact ⟨c, hc, rfl⟩
    · intro hcp
      simp [handle_device_discovered, auto_connect_to_device, hauto, hpaired, hmem, hok, hcp]
    · by_cases hcp : cp ≠ some port <;>
        simp [handle_device_discovered, auto_connect_to_device, hauto, hpaired, hmem, hok, hcp]
  · cases adbOut <;>
      simp [handle_device_discovered, hauto, hpaired, hmem, List.countP_append,
        countP_attempt_found, isConnectAttempt]

/-- Witness for C6: one connect-service discovery at a changed port against
the concrete world. -/
theorem c6_auto_connect_updates_cache_not_registry_witness :
    ((handle_device_discovered c6World "10.0.0.7" 5556 .connect
        (some "connected to 10.0.0.7:5556")).2.countP isConnectAttempt = 1) ∧
    ("10.0.0.7" ∈ (handle_device_discovered c6World "10.0.0.7" 5556 .connect
        (some "connected to 10.0.0.7:5556")).1.connected) ∧
    (MonEvent.connectedCb 1 "10.0.0.7" 5556 ∈
      (handle_device_discovered c6World "10.0.0.7" 5556 .connect
        (some "connected to 10.0.0.7:5556")).2) ∧
    ((handle_device_discovered c6World "10.0.0.7" 5556 .connect
        (some "connected to 10.0.0.7:5556")).1.registry = c6World.registry) := by
  have h := c6_auto_connect_updates_cache_not_registry c6World "10.0.0.7" 5556 (some 5555)
    "connected to 10.0.0.7:5556" (by decide) (by decide) (by decide)
  have h2 := h.2.1 (by decide)
  exact ⟨h.1 (some "connected to 10.0.0.7:5556"), h2.1,
    h2.2.1 ⟨1, false⟩ (by decide), h2.2.2.2⟩

/-! ## Properties of the tray status snapshot -/

/-- Concrete registry records and check oracles for the C9 scenario: the first
device is connected and mirroring, the second is not. -/
def c9dev1 : Dict :=
  (((((Dict.empty.set "address" (.vs "192.168.1.5")).set "connect_port" (.vn 5555)).set
    "name" (.vs "Pixel 7")).set "model" (.vs "panther")).set
    "manufacturer" (.vs "Google")).set "android_version" (.vs "14")

/-- Second concrete registry record: a disconnected device. -/
def c9dev2 : Dict :=
  (((((Dict.empty.set "address" (.vs "192.168.1.6")).set "connect_port" (.vn 5557)).set
    "name" (.vs "Tab S9")).set "model" (.vs "gts9")).set
    "manufacturer" (.vs "Samsung")).set "android_version" (.vs "13")

/-- The live connection check of the scenario: only the first device. -/
def c9check : PyVal → PyVal → Bool := fun a p =>
  decide (a = .vs "192.168.1.5") && decide (p = .vn 5555)

/-- C9: the status message is one JSON object whose "devices" array has
exactly one entry per registry record in order; each entry is built by
`buildEntry` from the record and the two check oracles; in the concrete
two-device scenario (one connected and mirroring, one disconnected) the array
has length 2 and the boolean flags are true/true for the first entry and
false/false for the second, with the identity fields read from the records. -/
theorem c9_status_snapshot :
    (∀ connCheck mirrorCheck (devices : List Dict), ∃ entries,
      statusMessage connCheck mirrorCheck devices = .jobj [("devices", .jarr entries)] ∧
      entries.length = devices.length) ∧
    (∀ connCheck mirrorCheck (devices : List Dict) (i : Nat),
      (send_devices_to_tray connCheck mirrorCheck devices).get? i =
        (devices.get? i).map (buildEntry connCheck mirrorCheck)) ∧
    (send_devices_to_tray c9check c9check [c9dev1, c9dev2] =
      [{ name := .vs "Pixel 7", address := some (.vs "192.168.1.5"), connected := true,
         mirroring := true, model := some (.vs "panther"),
         manufacturer := some (.vs "Google"), android_version := some (.vs "14") },
       { name := .vs "Tab S9", address := some (.vs "192.168.1.6"), connected := false,
         mirroring := false, model := some (.vs "gts9"),
         manufacturer := some (.vs "Samsung"), android_version := some (.vs "13") }]) := by
  refine ⟨fun cc mc devices => ?_, fun cc mc devices i => ?_, by decide⟩
  · exact ⟨(send_devices_to_tray cc mc devices).map entryJson, rfl, by
      simp [send_devices_to_tray]⟩
  · simp [send_devices_to_tray]
